import Mathlib

/-!
Verification of the PyTech order-management and trade-execution core
(`pytech/trading/blotter.py`) against its natural-language specification.

The Blotter class is embedded shallowly below.  Its collaborators
(`Order`, `Trade`, `Portfolio`, `OwnedAsset`, the commission model, the
asset finder and the exception classes) are not part of the available
sources; each of those definitions carries a doc comment starting with
`Modelled from the spec:` and follows the specification's words.

Modelling conventions:
- Python's dynamically typed dictionary keys (an `Asset` object or its
  ticker string) are embedded as the sum type `Key`; a Python dict is an
  insertion-ordered association list (`PyDict` operations below).
- Monetary amounts (prices, cash, commission) are embedded as `Int`,
  exact integral amounts; every scenario in the specification uses
  integral amounts, so no precision is lost where the claims look.
- Python exceptions are embedded as `Except PyErr`; a raised exception
  is `.error e`, normal return is `.ok`.
- Mutation of `self` and of argument objects is embedded as explicit
  state passing: a method that mutates the blotter returns the new
  `Blotter`, a method that mutates an order returns the new `Order`.
-/

namespace PyTech

/-- Ticker symbols are strings. -/
abbrev Ticker := String

/-- Modelled from the spec: the BUY/SELL action of an order (`TradeAction`). -/
inductive TradeAction
  | buy
  | sell
deriving DecidableEq, Repr

/-- Modelled from the spec: the LONG/SHORT side of a position (`AssetPosition`). -/
inductive AssetPosition
  | long
  | short
deriving DecidableEq, Repr

/-- Printing of a position side, standing in for Python's string formatting
of the enum member in strategy annotations. -/
def AssetPosition.toStr : AssetPosition → String
  | .long => "LONG"
  | .short => "SHORT"

/-- Modelled from the spec: order types (market / stop / limit / stop-limit). -/
inductive OrderType
  | market
  | stop
  | limit
  | stop_limit
deriving DecidableEq, Repr

/-- Modelled from the spec: order subtypes (day, good-till-cancel). -/
inductive OrderSubType
  | day
  | good_till_cancel
deriving DecidableEq, Repr

/-- Modelled from the spec: an `Asset` object; only its `ticker` attribute is
used by the blotter code. -/
structure Asset where
  ticker : Ticker
deriving DecidableEq, Repr

/-- A dynamically typed dictionary key as accepted by the blotter's item
protocol: either a raw ticker string or an `Asset` object.  Two keys are
equal exactly when Python would consider them equal dict keys: equal
strings, or the same asset; an `Asset` object is never equal to a string. -/
inductive Key
  | str (s : String)
  | asset (a : Asset)
deriving DecidableEq, Repr

/-- Normalisation used by modelled collaborator code (the Portfolio's
instrument-keyed mapping): either key form resolves to the ticker string. -/
def Key.toTicker : Key → Ticker
  | .str s => s
  | .asset a => a.ticker

/-- The Python exceptions the embedded code can raise.  `NotAFinderError`,
`NotAPortfolioError`, `InvalidOrderError` and `InvalidQuantityError` are the
typed errors named by the spec; the rest are built-in Python exceptions. -/
inductive PyErr
  | keyError
  | attributeError
  | valueError
  | typeError
  | notAFinderError
  | notAPortfolioError
  | invalidOrderError
  | invalidQuantityError
deriving DecidableEq, Repr

namespace PyDict

variable {α β : Type} [DecidableEq α]

/-- Lookup in an insertion-ordered association list (a Python dict). -/
def lookup (k : α) : List (α × β) → Option β
  | [] => none
  | (k', v) :: rest => if k' = k then some v else lookup k rest

/-- Membership test (`k in d`). -/
def contains (k : α) : List (α × β) → Bool
  | [] => false
  | (k', _) :: rest => if k' = k then true else contains k rest

/-- Assignment `d[k] = v`: updates the value in place if the key is present,
appends the pair otherwise (Python dicts preserve insertion order). -/
def insert (k : α) (v : β) : List (α × β) → List (α × β)
  | [] => [(k, v)]
  | (k', v') :: rest => if k' = k then (k, v) :: rest else (k', v') :: insert k v rest

/-- Deletion `del d[k]`: removes the key.  A dict holds each key at most
once, so removing every matching pair models the deletion. -/
def erase (k : α) : List (α × β) → List (α × β) :=
  List.filter (fun kv => !(kv.1 = k : Bool))

end PyDict

/-- Modelled from the spec: an `Order` (instrument, action, type, subtype,
requested quantity, filled quantity, optional stop and limit prices,
creation timestamp, accumulated commission, open/closed flag).  The
`asset` field holds exactly the key the caller passed to `place_order`. -/
structure Order where
  asset : Key
  action : TradeAction
  order_type : OrderType
  order_subtype : Option OrderSubType
  stop : Option Int
  limit : Option Int
  qty : Int
  filled : Int
  commission : Int
  created : Option Nat
  is_open : Bool
deriving DecidableEq, Repr

/-- Modelled from the spec: `open_amount = requested − filled`. -/
def Order.open_amount (o : Order) : Int :=
  o.qty - o.filled

/-- Modelled from the spec: the remaining fillable quantity (`open_amount`).
The subtype-driven expiry capping (day orders reporting zero after the
session ends) is mentioned by the spec without session semantics and no
claim depends on it, so the volume is the open amount at every date. -/
def Order.get_available_volume (o : Order) (_dt : Option Nat) : Int :=
  o.open_amount

/-- Modelled from the spec: order construction (`place`), failing with
`InvalidOrderError` if `qty ≤ 0` or if a stop/limit order lacks the
required price(s); a fresh order is open with nothing filled and no
accumulated commission. -/
def Order.place (asset : Key) (action : TradeAction) (order_type : OrderType)
    (order_subtype : Option OrderSubType) (stop limit : Option Int) (qty : Int)
    (created : Option Nat) : Except PyErr Order :=
  if qty ≤ 0 then .error .invalidOrderError
  else
    let priced : Bool :=
      match order_type with
      | .market => true
      | .stop => stop.isSome
      | .limit => limit.isSome
      | .stop_limit => stop.isSome && limit.isSome
    if priced then
      .ok { asset := asset, action := action, order_type := order_type,
            order_subtype := order_subtype, stop := stop, limit := limit,
            qty := qty, filled := 0, commission := 0, created := created,
            is_open := true }
    else .error .invalidOrderError

/-- Modelled from the spec: `check_triggers(current_time, current_price)`.
A market order always fires; a BUY stop fires when price ≥ stop and a SELL
stop when price ≤ stop; a BUY limit fires when price ≤ limit and a SELL
limit when price ≥ limit; a stop-limit requires both.  A missing price on
a stop/limit order cannot occur for validly constructed orders. -/
def Order.check_triggers (o : Order) (_dt : Option Nat) (current_price : Int) : Bool :=
  let stopFires : Bool :=
    match o.stop with
    | some s => match o.action with
      | .buy => s ≤ current_price
      | .sell => current_price ≤ s
    | none => false
  let limitFires : Bool :=
    match o.limit with
    | some l => match o.action with
      | .buy => current_price ≤ l
      | .sell => l ≤ current_price
    | none => false
  match o.order_type with
  | .market => true
  | .stop => stopFires
  | .limit => limitFires
  | .stop_limit => stopFires && limitFires

/-- Modelled from the spec: an immutable `Trade` record of an executed fill. -/
structure Trade where
  ticker : Key
  qty : Int
  action : TradeAction
  execution_price : Int
  commission : Int
  trade_date : Option Nat
  strategy : String
deriving DecidableEq, Repr

/-- Modelled from the spec: `Trade.from_order` derives a trade snapshot from
an order and its execution context, failing with `InvalidQuantityError`
when the resolved fill quantity (the order's available volume) is zero or
negative. -/
def Trade.from_order (order : Order) (trade_date : Option Nat)
    (execution_price : Int) (commission : Int) (strategy : String) :
    Except PyErr Trade :=
  let qty := order.get_available_volume trade_date
  if qty ≤ 0 then .error .invalidQuantityError
  else
    .ok { ticker := order.asset, qty := qty, action := order.action,
          execution_price := execution_price, commission := commission,
          trade_date := trade_date, strategy := strategy }

/-- Modelled from the spec: `trade_value()` is the signed cash impact of the
trade, negative (outflow) for BUY and positive (inflow) for SELL, net of
commission. -/
def Trade.trade_value (t : Trade) : Int :=
  match t.action with
  | .buy => -(t.qty * t.execution_price) - t.commission
  | .sell => t.qty * t.execution_price - t.commission

/-- Modelled from the spec: a commission model is a single-method policy
mapping an order and an execution price to a cost. -/
structure CommissionModel where
  calculate : Order → Int → Int

/-- Modelled from the spec: the default per-order model charges a flat fee
per order regardless of quantity; the fee's value is not specified and is
fixed at 1 here (no claim depends on the default's value). -/
def PerOrderCommissionModel : CommissionModel :=
  { calculate := fun _ _ => 1 }

/-- Modelled from the spec: an `OwnedAsset` (position) with its instrument,
shares owned, average share price, side, and the price of the latest fill
applied to it (used for the derived position value). -/
structure OwnedAsset where
  asset : Asset
  shares_owned : Int
  average_share_price : Int
  latest_price : Int
  position : AssetPosition
deriving DecidableEq, Repr

/-- Modelled from the spec: the derived total position cost, the signed
cash impact of establishing the position at its average price — an
outflow for a LONG position, an inflow for a SHORT one. -/
def OwnedAsset.total_position_cost (oa : OwnedAsset) : Int :=
  match oa.position with
  | .long => -(oa.shares_owned * oa.average_share_price)
  | .short => oa.shares_owned * oa.average_share_price

/-- Modelled from the spec: the derived total position value at the latest
price, signed analogously to the cost. -/
def OwnedAsset.total_position_value (oa : OwnedAsset) : Int :=
  match oa.position with
  | .long => oa.shares_owned * oa.latest_price
  | .short => -(oa.shares_owned * oa.latest_price)

/-- Modelled from the spec: applying a fill of `qty` shares at
`price_per_share` to an existing position: the share count is adjusted and
the average price is recomputed as the weighted average (amounts are
integral and the division is exact in the specification's scenarios). -/
def OwnedAsset.make_trade (oa : OwnedAsset) (qty : Int) (price_per_share : Int) :
    OwnedAsset :=
  let shares' := oa.shares_owned + qty
  { oa with
    shares_owned := shares'
    average_share_price :=
      if shares' = 0 then oa.average_share_price
      else (oa.shares_owned * oa.average_share_price + qty * price_per_share) / shares'
    latest_price := price_per_share }

/-- Modelled from the spec: the in-memory asset-lookup collaborator; its
internals are irrelevant to the blotter logic. -/
structure AssetFinder where
  assets : List Asset
deriving DecidableEq, Repr

/-- A freshly constructed, empty in-memory finder (`AssetFinder()`). -/
def AssetFinder.init : AssetFinder :=
  { assets := [] }

/-- Modelled from the spec: a `Portfolio` aggregates a cash balance and an
instrument-keyed mapping of owned assets. -/
structure Portfolio where
  cash : Int
  owned_assets : List (Ticker × OwnedAsset)
deriving DecidableEq, Repr

/-- Modelled from the spec: a freshly constructed in-memory `Portfolio()`;
the starting cash value is not specified and is taken as 0. -/
def Portfolio.init : Portfolio :=
  { cash := 0, owned_assets := [] }

/-- Modelled from the spec: `check_liquidity(commission, price_per_share, qty)`
is true iff `cash ≥ commission + price_per_share × qty`. -/
def Portfolio.check_liquidity (p : Portfolio) (commission price_per_share qty : Int) :
    Bool :=
  decide (commission + price_per_share * qty ≤ p.cash)

/-- Modelled from the spec: the Portfolio's item assignment; positions are
kept in an instrument-keyed mapping, either key form resolving to the
ticker. -/
def Portfolio.setitem (p : Portfolio) (key : Key) (value : OwnedAsset) : Portfolio :=
  { p with owned_assets := PyDict.insert key.toTicker value p.owned_assets }

/-- The possible values of the blotter's `orders` dictionary as Python sees
them: `place_order` stores tuples of orders, while parts of the blotter
code treat a value as a single order object. -/
inductive OrdVal
  | tup (os : List Order)
  | one (o : Order)
deriving DecidableEq, Repr

/-- Whether an orders-table value is a tuple of orders (the shape
`place_order` creates). -/
def OrdVal.isTup : OrdVal → Bool
  | .tup _ => true
  | .one _ => false

/-- Python's `value + (order,)`: appending to a tuple succeeds, while adding
a tuple to a bare order object is a `TypeError`. -/
def OrdVal.addTuple (v : OrdVal) (o : Order) : Except PyErr OrdVal :=
  match v with
  | .tup os => .ok (.tup (os ++ [o]))
  | .one _ => .error .typeError

/-- The `Blotter`: all open orders keyed by instrument, the append-only
trade history, the two collaborators, the current simulated timestamp and
the pluggable commission model (`Blotter.__init__` fields). -/
structure Blotter where
  asset_finder : AssetFinder
  portfolio : Portfolio
  orders : List (Key × OrdVal)
  trades : List Trade
  current_dt : Option Nat
  commission_model : CommissionModel

/-- The `asset_finder` property setter: accepts an `AssetFinder`, substitutes
a fresh default for `None`, and raises `NotAFinderError` for anything else.
The dynamic argument is embedded as an `Option`: a supplied finder, a
supplied value of some other type (represented by its unit of evidence
that it is not a finder), or `None`. -/
inductive FinderArg
  | is_none
  | finder (f : AssetFinder)
  | portfolio_obj (p : Portfolio)
  | other
deriving Repr

/-- The `portfolio` property setter's dynamic argument, analogously. -/
inductive PortfolioArg
  | is_none
  | portfolio (p : Portfolio)
  | finder_obj (f : AssetFinder)
  | other
deriving Repr

/-- The validated `asset_finder` setter from `Blotter` (property setter). -/
def setAssetFinder : FinderArg → Except PyErr AssetFinder
  | .finder f => .ok f
  | .is_none => .ok AssetFinder.init
  | .portfolio_obj _ => .error .notAFinderError
  | .other => .error .notAFinderError

/-- The validated `portfolio` setter from `Blotter` (property setter). -/
def setPortfolio : PortfolioArg → Except PyErr Portfolio
  | .portfolio p => .ok p
  | .is_none => .ok Portfolio.init
  | .finder_obj _ => .error .notAPortfolioError
  | .other => .error .notAPortfolioError

/-- `Blotter.__init__`: assigns the validated finder and portfolio (in that
order), starts with empty orders and trades, no current timestamp, and the
supplied commission model or the per-order default. -/
def Blotter.init (asset_finder : FinderArg) (portfolio : PortfolioArg)
    (commission_model : Option CommissionModel) : Except PyErr Blotter :=
  match setAssetFinder asset_finder with
  | .error e => .error e
  | .ok f =>
    match setPortfolio portfolio with
    | .error e => .error e
    | .ok p =>
      .ok { asset_finder := f, portfolio := p, orders := [], trades := [],
            current_dt := none,
            commission_model := commission_model.getD PerOrderCommissionModel }

/-- `Blotter.__getitem__`: plain dictionary lookup with the raw key; a miss
is a `KeyError`. -/
def Blotter.getitem (b : Blotter) (key : Key) : Except PyErr OrdVal :=
  match PyDict.lookup key b.orders with
  | some v => .ok v
  | none => .error .keyError

/-- `Blotter.__setitem__`: if the key is an `Asset` instance the value is
stored under its ticker, otherwise under the key itself. -/
def Blotter.setitem (b : Blotter) (key : Key) (value : OrdVal) : Blotter :=
  match key with
  | .asset a => { b with orders := PyDict.insert (Key.str a.ticker) value b.orders }
  | .str s => { b with orders := PyDict.insert (Key.str s) value b.orders }

/-- `Blotter.__delitem__`: plain dictionary deletion with the raw key; a
miss is a `KeyError`. -/
def Blotter.delitem (b : Blotter) (key : Key) : Except PyErr Blotter :=
  if PyDict.contains key b.orders then
    .ok { b with orders := PyDict.erase key b.orders }
  else .error .keyError

/-- The `date_placed is None` defaulting at the top of `place_order`. -/
def resolveDate (date_placed current_dt : Option Nat) : Option Nat :=
  match date_placed with
  | some d => some d
  | none => current_dt

/-- `Blotter.place_order`: constructs the order and either appends it to the
existing tuple (`self[ticker] += (order,)`, a get-then-set through the raw
key) when the raw key is already a dict key, or stores a fresh one-element
tuple otherwise. -/
def Blotter.place_order (b : Blotter) (ticker : Key) (action : TradeAction)
    (order_type : OrderType) (stop_price limit_price : Option Int) (qty : Int)
    (date_placed : Option Nat) (order_subtype : Option OrderSubType) :
    Except PyErr Blotter :=
  let date_placed := resolveDate date_placed b.current_dt
  match Order.place ticker action order_type order_subtype stop_price limit_price
      qty date_placed with
  | .error e => .error e
  | .ok order =>
    if PyDict.contains ticker b.orders then
      match b.getitem ticker with
      | .error e => .error e
      | .ok v =>
        match v.addTuple order with
        | .error e => .error e
        | .ok v' => .ok (b.setitem ticker v')
    else
      .ok (b.setitem ticker (.tup [order]))

/-- `Blotter.make_trade`: computes the commission, accumulates it on the
order, and — only if the portfolio's liquidity check passes — builds the
trade, advances the order's filled quantity, applies the trade value to the
portfolio's cash and appends the trade to the history; otherwise a warning
is logged and nothing else happens.  Returns the (possibly) updated order
object together with the new blotter state. -/
def Blotter.make_trade (b : Blotter) (order : Order) (price_per_share : Int)
    (trade_date : Option Nat) : Except PyErr (Order × Blotter) :=
  let commission_cost := b.commission_model.calculate order price_per_share
  let order := { order with commission := order.commission + commission_cost }
  if b.portfolio.check_liquidity commission_cost price_per_share order.qty then
    match Trade.from_order order trade_date price_per_share commission_cost
        "Executing Order." with
    | .error e => .error e
    | .ok trade =>
      let order := { order with filled := order.filled + trade.qty }
      .ok (order,
        { b with
          portfolio := { b.portfolio with cash := b.portfolio.cash + trade.trade_value }
          trades := b.trades ++ [trade] })
  else
    .ok (order, b)

/-- `Blotter._open_new_position`: the side is SHORT exactly when the order's
action is SELL; a new `OwnedAsset` sized to the order's available volume at
the trade date is created at the execution price, the cash is adjusted by
its total position cost, the position is stored under the instrument key,
and the opening trade is built. -/
def Blotter._open_new_position (b : Blotter) (price_per_share : Int)
    (trade_date : Option Nat) (order : Order) : Except PyErr (Trade × Blotter) :=
  let asset := order.asset
  let position : AssetPosition :=
    match order.action with
    | .sell => .short
    | .buy => .long
  let owned_asset : OwnedAsset :=
    { asset := { ticker := asset.toTicker },
      shares_owned := order.get_available_volume trade_date,
      average_share_price := price_per_share,
      latest_price := price_per_share,
      position := position }
  let p := { b.portfolio with cash := b.portfolio.cash + owned_asset.total_position_cost }
  let p := p.setitem asset owned_asset
  match Trade.from_order order trade_date price_per_share 0
      ("Open new " ++ position.toStr ++ " position") with
  | .error e => .error e
  | .ok trade => .ok (trade, { b with portfolio := p })

/-- `Blotter._update_existing_position`: the fill is applied to the existing
owned asset; a nonzero resulting share count is stored back under its
ticker with the cash adjusted by the total position cost, while a zero
share count credits the cash with the total position value and deletes the
position (a deletion of an absent ticker is Python's `KeyError`). -/
def Blotter._update_existing_position (b : Blotter) (price_per_share : Int)
    (trade_date : Option Nat) (owned_asset : OwnedAsset) (order : Order) :
    Except PyErr (Trade × Blotter) :=
  let owned_asset :=
    owned_asset.make_trade (order.get_available_volume trade_date) price_per_share
  if owned_asset.shares_owned ≠ 0 then
    let p := b.portfolio.setitem (.str owned_asset.asset.ticker) owned_asset
    let p := { p with cash := p.cash + owned_asset.total_position_cost }
    match Trade.from_order order trade_date price_per_share 0
        ("Update an existing " ++ owned_asset.position.toStr ++ " position") with
    | .error e => .error e
    | .ok trade => .ok (trade, { b with portfolio := p })
  else
    let p := { b.portfolio with cash := b.portfolio.cash + owned_asset.total_position_value }
    if PyDict.contains owned_asset.asset.ticker p.owned_assets then
      let p := { p with owned_assets := PyDict.erase owned_asset.asset.ticker p.owned_assets }
      match Trade.from_order order trade_date price_per_share 0
          ("Close an existing " ++ owned_asset.position.toStr ++ " position") with
      | .error e => .error e
      | .ok trade => .ok (trade, { b with portfolio := p })
    else .error .keyError

/-- The loop body of `purge_closed_orders` for one key of the orders dict.
Iterating a Python dict yields its keys, so `for ticker, asset_orders in
self.orders` tuple-unpacks each key: unpacking an `Asset` object is a
`TypeError`; unpacking a string succeeds only when it has exactly two
characters, raising `ValueError` otherwise; and when it does succeed the
inner loop runs over the one-character string `asset_orders`, where
`order.open` on that character (a `str`) is an `AttributeError`. -/
def purgeKeyStep (k : Key) : Except PyErr Unit :=
  match k with
  | .asset _ => .error .typeError
  | .str s =>
    if s.length = 2 then .error .attributeError
    else .error .valueError

/-- The rebuild loop of `purge_closed_orders` over the keys of the orders
dict, threading the accumulator `open_orders`. -/
def purgeLoop : List (Key × OrdVal) → List (Key × OrdVal) →
    Except PyErr (List (Key × OrdVal))
  | [], acc => .ok acc
  | (k, _) :: rest, acc =>
    match purgeKeyStep k with
    | .error e => .error e
    | .ok _ => purgeLoop rest acc

/-- `Blotter.purge_closed_orders`: rebuilds `self.orders` from the loop's
accumulator when the loop finishes. -/
def Blotter.purge_closed_orders (b : Blotter) : Except PyErr Blotter :=
  match purgeLoop b.orders [] with
  | .error e => .error e
  | .ok acc => .ok { b with orders := acc }

/-- The loop of `check_order_triggers` over the values of the orders dict:
`order.check_triggers(...)` on a tuple value is an `AttributeError`; on a
bare order value the triggers are checked and a firing order is traded,
the mutated order object staying visible through the table. -/
def triggersLoop (dt : Option Nat) (current_price : Int) :
    List (Key × OrdVal) → Blotter → Except PyErr Blotter
  | [], b => .ok b
  | (k, v) :: rest, b =>
    match v with
    | .tup _ => .error .attributeError
    | .one o =>
      if o.check_triggers dt current_price then
        match b.make_trade o current_price dt with
        | .error e => .error e
        | .ok (o', b') =>
          triggersLoop dt current_price rest
            { b' with orders := PyDict.insert k (.one o') b'.orders }
      else triggersLoop dt current_price rest b

/-- `Blotter.check_order_triggers`: runs the trigger loop over every stored
value and afterwards purges closed orders. -/
def Blotter.check_order_triggers (b : Blotter) (dt : Option Nat)
    (current_price : Int) : Except PyErr Blotter :=
  match triggersLoop dt current_price b.orders b with
  | .error e => .error e
  | .ok b' => b'.purge_closed_orders

/-! Concrete fixtures used by the counterexamples and witnesses below. -/

/-- A commission model charging a flat fee of 1 per order. -/
def feeOne : CommissionModel :=
  { calculate := fun _ _ => 1 }

/-- A blotter with the given cash, no positions, no orders, no trades, and
the flat fee-1 commission model. -/
def baseBlotter (cash : Int) : Blotter :=
  { asset_finder := AssetFinder.init,
    portfolio := { cash := cash, owned_assets := [] },
    orders := [], trades := [], current_dt := none, commission_model := feeOne }

/-- A freshly placed market BUY order for the given key and quantity. -/
def buyOrder (k : Key) (qty : Int) : Order :=
  { asset := k, action := .buy, order_type := .market, order_subtype := none,
    stop := none, limit := none, qty := qty, filled := 0, commission := 0,
    created := some 0, is_open := true }

/-- Insufficient-cash scenario: cash 10 against a BUY of 100 shares. -/
def cbLow : Blotter := baseBlotter 10

/-- The BUY order of 100 shares used in the insufficient-cash scenario. -/
def coBig : Order := buyOrder (Key.str "AAPL") 100

/-- A well-funded blotter with cash 1000. -/
def cbRich : Blotter := baseBlotter 1000

/-- A BUY order of 10 shares of AAPL. -/
def coTen : Order := buyOrder (Key.str "AAPL") 10

/-- The trade produced by filling `coTen` at price 5 with commission 1. -/
def cTrade : Trade :=
  { ticker := Key.str "AAPL", qty := 10, action := .buy, execution_price := 5,
    commission := 1, trade_date := some 0, strategy := "Executing Order." }

/-- The order object after `coTen` is filled at price 5 with commission 1. -/
def coTenFilled : Order :=
  { coTen with commission := 1, filled := 10 }

/-- The blotter state after `cbRich` accepts the fill of `coTen` at price 5. -/
def cbRichAfter : Blotter :=
  { cbRich with portfolio := { cbRich.portfolio with cash := 949 }, trades := [cTrade] }

/-- A blotter whose orders table holds what `place_order` stores: the key
AAPL mapped to a one-element tuple of orders. -/
def cbTable : Blotter :=
  { cbRich with orders := [(Key.str "AAPL", OrdVal.tup [coTen])] }

/-- A blotter whose orders table has a two-character ticker key. -/
def cbTableAB : Blotter :=
  { cbRich with orders := [(Key.str "AB", OrdVal.tup [buyOrder (Key.str "AB") 5])] }

/-- A blotter with an empty orders table but a nonempty trade history. -/
def cbTrades : Blotter :=
  { baseBlotter 0 with trades := [cTrade] }

/-- The Asset object with ticker AB used for the polymorphic-key scenarios. -/
def aAB : Asset :=
  { ticker := "AB" }

/-- An existing LONG position of 5 shares of AAPL at average price 10. -/
def cOwned : OwnedAsset :=
  { asset := { ticker := "AAPL" }, shares_owned := 5, average_share_price := 10,
    latest_price := 10, position := .long }

/-- A blotter whose portfolio holds the existing AAPL position `cOwned`. -/
def cbHolding : Blotter :=
  { cbRich with portfolio := { cash := 1000, owned_assets := [("AAPL", cOwned)] } }

/-! Helper lemmas about the dictionary model. -/

/-- Decidable equality of embedded Python results. -/
instance instDecEqExcept {ε α : Type} [DecidableEq ε] [DecidableEq α] :
    DecidableEq (Except ε α) := fun x y =>
  match x, y with
  | .error e, .error e' =>
    decidable_of_iff (e = e')
      ⟨fun h => by rw [h], fun h => by injection h⟩
  | .error _, .ok _ => .isFalse (fun h => Except.noConfusion h)
  | .ok _, .error _ => .isFalse (fun h => Except.noConfusion h)
  | .ok a, .ok a' =>
    decidable_of_iff (a = a')
      ⟨fun h => by rw [h], fun h => by injection h⟩

/-- Looking up a key right after assigning it yields the assigned value. -/
theorem PyDict.lookup_insert {α β : Type} [DecidableEq α] (k : α) (v : β)
    (t : List (α × β)) : PyDict.lookup k (PyDict.insert k v t) = some v := by
  induction t with
  | nil => simp [PyDict.insert, PyDict.lookup]
  | cons kv rest ih =>
    obtain ⟨k', v'⟩ := kv
    by_cases h : k' = k
    · simp [PyDict.insert, PyDict.lookup, h]
    · simp [PyDict.insert, PyDict.lookup, h, ih]

/-- Looking up a key right after deleting it misses. -/
theorem PyDict.lookup_erase {α β : Type} [DecidableEq α] (k : α)
    (t : List (α × β)) : PyDict.lookup k (PyDict.erase k t) = none := by
  induction t with
  | nil => simp [PyDict.erase, PyDict.lookup]
  | cons kv rest ih =>
    obtain ⟨k', v'⟩ := kv
    by_cases h : k' = k
    · simpa [PyDict.erase, PyDict.lookup, h] using ih
    · simpa [PyDict.erase, PyDict.lookup, h] using ih

/-- Membership agrees with lookup. -/
theorem PyDict.contains_eq_isSome {α β : Type} [DecidableEq α] (k : α)
    (t : List (α × β)) : PyDict.contains k t = (PyDict.lookup k t).isSome := by
  induction t with
  | nil => simp [PyDict.contains, PyDict.lookup]
  | cons kv rest ih =>
    obtain ⟨k', v'⟩ := kv
    by_cases h : k' = k
    · simp [PyDict.contains, PyDict.lookup, h]
    · simp [PyDict.contains, PyDict.lookup, h, ih]

/-- A successful lookup in a table all of whose entries satisfy a predicate
returns a value satisfying it. -/
theorem PyDict.lookup_all {α β : Type} [DecidableEq α] (p : α × β → Bool)
    (t : List (α × β)) (h : t.all p = true) (k : α) (v : β)
    (hl : PyDict.lookup k t = some v) : p (k, v) = true := by
  induction t with
  | nil => simp [PyDict.lookup] at hl
  | cons kv rest ih =>
    obtain ⟨k', v'⟩ := kv
    simp only [List.all_cons, Bool.and_eq_true] at h
    by_cases hk : k' = k
    · simp only [PyDict.lookup, hk, if_pos rfl] at hl
      cases hl
      subst hk
      exact h.1
    · simp only [PyDict.lookup, hk, if_neg hk] at hl
      exact ih h.2 hl

/-- The rejection path of `make_trade`: when the liquidity check is false the
call returns normally with the blotter unchanged and the order changed only
in its accumulated commission. -/
theorem make_trade_reject_eq (b : Blotter) (order : Order) (price : Int)
    (dt : Option Nat)
    (h : b.portfolio.check_liquidity (b.commission_model.calculate order price)
        price order.qty = false) :
    b.make_trade order price dt =
      .ok ({ order with
             commission := order.commission + b.commission_model.calculate order price },
           b) := by
  unfold Blotter.make_trade
  dsimp only
  rw [h]
  simp

/-! Claim theorems. -/

/-- C1 (counterexample): the claim states that a rejected trade leaves the
order's accumulated commission unchanged, but on the blotter with cash 10
and flat fee 1, a rejected BUY of 100 shares at price 5 returns the order
with its commission raised from 0 to 1: the commission is accumulated on
the order before the liquidity check. -/
theorem reject_mutates_commission_cex :
    cbLow.portfolio.check_liquidity (cbLow.commission_model.calculate coBig 5) 5
        coBig.qty = false ∧
    (cbLow.make_trade coBig 5 (some 0)).map (fun r => (r.1.commission, r.1.filled))
      = .ok (1, 0) ∧
    coBig.commission = 0 := by
  decide

/-- C1 (amended): for every order, execution price and trade date such that
the liquidity check returns false, `make_trade` returns normally (raising
no exception), leaves the order's filled quantity, the portfolio's cash and
positions, and the trade history unchanged — the one mutation is that the
order's accumulated commission has been increased by the computed
commission cost, which happens before the liquidity gate. -/
theorem reject_leaves_state_unchanged (b : Blotter) (order : Order) (price : Int)
    (dt : Option Nat)
    (h : b.portfolio.check_liquidity (b.commission_model.calculate order price)
        price order.qty = false) :
    b.make_trade order price dt =
      .ok ({ order with
             commission := order.commission + b.commission_model.calculate order price },
           b) :=
  make_trade_reject_eq b order price dt h

/-- C1 (witness): the amended theorem instantiated on the insufficient-cash
scenario (cash 10, BUY 100 at price 5). -/
theorem reject_leaves_state_unchanged_witness :
    cbLow.portfolio.check_liquidity (cbLow.commission_model.calculate coBig 5) 5
        coBig.qty = false ∧
    cbLow.make_trade coBig 5 (some 0) =
      .ok ({ coBig with
             commission := coBig.commission + cbLow.commission_model.calculate coBig 5 },
           cbLow) :=
  ⟨by decide, reject_leaves_state_unchanged cbLow coBig 5 (some 0) (by decide)⟩

/-- C2 (code bug evidence): an accepted BUY (cash 1000, fee 1, 10 shares at
price 5) builds the trade, fills the order and debits the cash, but leaves
the portfolio's positions untouched: `make_trade` never invokes
`_open_new_position` or `_update_existing_position`, contrary to its own
docstring and to the claim. -/
theorem make_trade_skips_position_update :
    (cbRich.make_trade coTen 5 (some 0)).map
        (fun r => (r.1.filled, r.2.portfolio.owned_assets, r.2.portfolio.cash,
                   r.2.trades))
      = .ok (10, [], 949, [cTrade]) ∧
    cbRich.portfolio.owned_assets = [] := by
  decide

/-- C3: for every accepted trade (one that appends to the trade history) on
a BUY order, the portfolio's cash before the trade is at least the
commission plus price times the order's quantity — the liquidity check is
the only gate on the accepting branch of `make_trade`. -/
theorem accepted_buy_liquidity_bound (b : Blotter) (o : Order) (price : Int)
    (dt : Option Nat) (o' : Order) (b' : Blotter)
    (_hbuy : o.action = TradeAction.buy)
    (h : b.make_trade o price dt = .ok (o', b'))
    (hgrew : b.trades.length < b'.trades.length) :
    b.commission_model.calculate o price + price * o.qty ≤ b.portfolio.cash := by
  by_cases hc : b.portfolio.check_liquidity (b.commission_model.calculate o price)
      price o.qty = true
  · have hc' : decide (b.commission_model.calculate o price + price * o.qty
        ≤ b.portfolio.cash) = true := hc
    exact of_decide_eq_true hc'
  · have hfalse : b.portfolio.check_liquidity (b.commission_model.calculate o price)
        price o.qty = false := by
      cases hval : b.portfolio.check_liquidity (b.commission_model.calculate o price)
          price o.qty
      · rfl
      · exact absurd hval hc
    rw [make_trade_reject_eq b o price dt hfalse] at h
    have hb : b = b' := congrArg Prod.snd (Except.ok.inj h)
    rw [← hb] at hgrew
    exact absurd hgrew (lt_irrefl _)

/-- C3 (witness): the bound instantiated on the accepted BUY of 10 shares at
price 5 against cash 1000 with flat fee 1. -/
theorem accepted_buy_liquidity_bound_witness :
    coTen.action = TradeAction.buy ∧
    cbRich.make_trade coTen 5 (some 0) = .ok (coTenFilled, cbRichAfter) ∧
    cbRich.trades.length < cbRichAfter.trades.length ∧
    cbRich.commission_model.calculate coTen 5 + 5 * coTen.qty ≤ cbRich.portfolio.cash :=
  ⟨rfl, rfl, by decide,
    accepted_buy_liquidity_bound cbRich coTen 5 (some 0) coTenFilled cbRichAfter
      rfl rfl (by decide)⟩

/-- C4 (code bug evidence): `place_order` stores a one-element tuple under
the ticker, and `check_order_triggers` then invokes `check_triggers` on
that stored tuple (the dict value), raising `AttributeError` before any
order's triggers are checked, any trade is made, or the purge runs. -/
theorem check_order_triggers_attribute_error :
    (cbRich.place_order (Key.str "AAPL") .buy .market none none 10 (some 0) none).map
        Blotter.orders
      = .ok [(Key.str "AAPL", OrdVal.tup [coTen])] ∧
    (cbTable.check_order_triggers (some 1) 5).map Blotter.orders
      = .error .attributeError := by
  decide

/-- C5 (code bug evidence): `purge_closed_orders` iterates the orders dict
itself — its keys — and tuple-unpacks each key string: `ValueError` for the
four-character ticker AAPL, `AttributeError` (`.open` on a character of the
key) for the two-character ticker AB; only an empty table survives the
loop, which then leaves the trade history untouched. -/
theorem purge_closed_orders_crashes :
    cbTable.purge_closed_orders.map Blotter.orders = .error .valueError ∧
    cbTableAB.purge_closed_orders.map Blotter.orders = .error .attributeError ∧
    cbTrades.purge_closed_orders.map (fun b => (b.orders, b.trades))
      = .ok ([], [cTrade]) := by
  decide

/-- C6 (counterexample): placing two orders through the same `Asset` object
(ticker AB) does not append: the membership test checks the raw `Asset`
against the normalized string key, misses, and the second `place_order`
replaces the stored one-element tuple, losing the first order (qty 5) and
keeping only the second (qty 7). -/
theorem place_order_asset_key_replaces_cex :
    ((baseBlotter 1000).place_order (Key.asset aAB) .buy .market none none 5
          (some 0) none).map Blotter.orders
      = .ok [(Key.str "AB", OrdVal.tup [buyOrder (Key.asset aAB) 5])] ∧
    (((baseBlotter 1000).place_order (Key.asset aAB) .buy .market none none 5
          (some 0) none).bind
        (fun b1 => b1.place_order (Key.asset aAB) .buy .market none none 7
          (some 0) none)).map Blotter.orders
      = .ok [(Key.str "AB", OrdVal.tup [buyOrder (Key.asset aAB) 7])] := by
  decide

/-- C6 (amended): when the key passed to `place_order` is a ticker string,
the claim holds: on a table whose values are order tuples, a key that is
already present gets the new order appended to its tuple (no existing order
replaced or removed, other instruments untouched), and an absent key gets a
fresh one-element tuple.  When the key is an `Asset` object whose ticker
already has orders, the membership test misses and the sequence is replaced
(see the counterexample). -/
theorem place_order_str_key_appends (b : Blotter) (s : String)
    (action : TradeAction) (ot : OrderType) (sp lp : Option Int) (qty : Int)
    (dp : Option Nat) (osub : Option OrderSubType) (order : Order)
    (hwf : b.orders.all (fun kv => kv.2.isTup) = true)
    (hplace : Order.place (Key.str s) action ot osub sp lp qty
        (resolveDate dp b.current_dt) = .ok order) :
    b.place_order (Key.str s) action ot sp lp qty dp osub =
      .ok { b with orders :=
        match PyDict.lookup (Key.str s) b.orders with
        | some (OrdVal.tup os) =>
            PyDict.insert (Key.str s) (.tup (os ++ [order])) b.orders
        | _ => PyDict.insert (Key.str s) (.tup [order]) b.orders } := by
  unfold Blotter.place_order
  dsimp only
  rw [hplace, PyDict.contains_eq_isSome]
  cases hl : PyDict.lookup (Key.str s) b.orders with
  | none =>
    simp [Blotter.setitem]
  | some v =>
    have htup : v.isTup = true := PyDict.lookup_all _ _ hwf _ _ hl
    cases v with
    | one o => simp [OrdVal.isTup] at htup
    | tup os =>
      simp [Blotter.getitem, hl, OrdVal.addTuple, Blotter.setitem]

/-- C6 (witness): the amended theorem instantiated on the table already
holding one AAPL order: the new order is appended to the tuple. -/
theorem place_order_str_key_appends_witness :
    cbTable.orders.all (fun kv => kv.2.isTup) = true ∧
    Order.place (Key.str "AAPL") .buy .market none none none 10
        (resolveDate (some 0) cbTable.current_dt) = .ok coTen ∧
    cbTable.place_order (Key.str "AAPL") .buy .market none none 10 (some 0) none =
      .ok { cbTable with orders :=
        match PyDict.lookup (Key.str "AAPL") cbTable.orders with
        | some (OrdVal.tup os) =>
            PyDict.insert (Key.str "AAPL") (.tup (os ++ [coTen])) cbTable.orders
        | _ => PyDict.insert (Key.str "AAPL") (.tup [coTen]) cbTable.orders } :=
  ⟨by decide, by decide,
    place_order_str_key_appends cbTable "AAPL" .buy .market none none 10 (some 0)
      none coTen (by decide) (by decide)⟩

/-- C7: applying a fill to an existing owned asset (one present in the
portfolio's holdings, with a positive fill volume so the trade snapshot can
be built) returns a Trade and: when the resulting shares_owned is zero the
position is gone from the holdings and the cash is credited by its
total_position_value; when it is nonzero the updated position is stored
back and the cash is adjusted by its total_position_cost. -/
theorem update_existing_position_spec (b : Blotter) (price : Int)
    (dt : Option Nat) (oa : OwnedAsset) (order : Order)
    (hvol : 0 < order.get_available_volume dt)
    (hmem : PyDict.contains
        (oa.make_trade (order.get_available_volume dt) price).asset.ticker
        b.portfolio.owned_assets = true) :
    ∃ trade b',
      b._update_existing_position price dt oa order = .ok (trade, b') ∧
      PyDict.lookup (oa.make_trade (order.get_available_volume dt) price).asset.ticker
          b'.portfolio.owned_assets
        = (if (oa.make_trade (order.get_available_volume dt) price).shares_owned = 0
           then none
           else some (oa.make_trade (order.get_available_volume dt) price)) ∧
      b'.portfolio.cash = b.portfolio.cash +
        (if (oa.make_trade (order.get_available_volume dt) price).shares_owned = 0
         then (oa.make_trade (order.get_available_volume dt) price).total_position_value
         else (oa.make_trade (order.get_available_volume dt) price).total_position_cost) := by
  have hq : ¬ order.get_available_volume dt ≤ 0 := not_le.mpr hvol
  unfold Blotter._update_existing_position
  dsimp only
  by_cases hz : (oa.make_trade (order.get_available_volume dt) price).shares_owned = 0
  · rw [if_neg (by simp [hz])]
    rw [hmem]
    unfold Trade.from_order
    rw [if_neg hq]
    dsimp only
    refine ⟨_, _, rfl, ?_, ?_⟩
    · rw [if_pos hz]
      exact PyDict.lookup_erase _ _
    · rw [if_pos hz]
  · rw [if_pos hz]
    unfold Trade.from_order
    rw [if_neg hq]
    dsimp only
    refine ⟨_, _, rfl, ?_, ?_⟩
    · rw [if_neg hz]
      exact PyDict.lookup_insert _ _ _
    · rw [if_neg hz]
      rfl

/-- C7 (witness): the specification instantiated on the holding of 5 AAPL
shares receiving a further fill of 10 shares at price 5 (nonzero result,
position stored back, cash adjusted by the position cost). -/
theorem update_existing_position_spec_witness :
    0 < coTen.get_available_volume (some 0) ∧
    PyDict.contains
        (cOwned.make_trade (coTen.get_available_volume (some 0)) 5).asset.ticker
        cbHolding.portfolio.owned_assets = true ∧
    (∃ trade b',
      cbHolding._update_existing_position 5 (some 0) cOwned coTen = .ok (trade, b') ∧
      PyDict.lookup (cOwned.make_trade (coTen.get_available_volume (some 0)) 5).asset.ticker
          b'.portfolio.owned_assets
        = (if (cOwned.make_trade (coTen.get_available_volume (some 0)) 5).shares_owned = 0
           then none
           else some (cOwned.make_trade (coTen.get_available_volume (some 0)) 5)) ∧
      b'.portfolio.cash = cbHolding.portfolio.cash +
        (if (cOwned.make_trade (coTen.get_available_volume (some 0)) 5).shares_owned = 0
         then (cOwned.make_trade (coTen.get_available_volume (some 0)) 5).total_position_value
         else (cOwned.make_trade (coTen.get_available_volume (some 0)) 5).total_position_cost)) :=
  ⟨by decide, by decide,
    update_existing_position_spec cbHolding 5 (some 0) cOwned coTen
      (by decide) (by decide)⟩

/-- C8: filling an order with no existing holding (with a positive fill
volume so the trade snapshot can be built) creates an owned asset whose
side is SHORT exactly when the order's action is SELL and LONG otherwise,
sized to the order's available volume at the trade date, with average
price equal to the execution price, adjusts the portfolio's cash by that
position's total_position_cost, and stores it under the instrument key. -/
theorem open_new_position_spec (b : Blotter) (price : Int) (dt : Option Nat)
    (order : Order) (hvol : 0 < order.get_available_volume dt) :
    ∃ trade b' oa,
      b._open_new_position price dt order = .ok (trade, b') ∧
      oa.position = (match order.action with
        | TradeAction.sell => AssetPosition.short
        | TradeAction.buy => AssetPosition.long) ∧
      oa.shares_owned = order.get_available_volume dt ∧
      oa.average_share_price = price ∧
      b'.portfolio.cash = b.portfolio.cash + oa.total_position_cost ∧
      PyDict.lookup order.asset.toTicker b'.portfolio.owned_assets = some oa := by
  have hq : ¬ order.get_available_volume dt ≤ 0 := not_le.mpr hvol
  unfold Blotter._open_new_position
  dsimp only
  unfold Trade.from_order
  rw [if_neg hq]
  dsimp only
  refine ⟨_, _, _, rfl, rfl, rfl, rfl, rfl, ?_⟩
  exact PyDict.lookup_insert _ _ _

/-- C8 (witness): the specification instantiated on the BUY of 10 AAPL
shares at price 5 against the well-funded empty portfolio. -/
theorem open_new_position_spec_witness :
    0 < coTen.get_available_volume (some 0) ∧
    (∃ trade b' oa,
      cbRich._open_new_position 5 (some 0) coTen = .ok (trade, b') ∧
      oa.position = (match coTen.action with
        | TradeAction.sell => AssetPosition.short
        | TradeAction.buy => AssetPosition.long) ∧
      oa.shares_owned = coTen.get_available_volume (some 0) ∧
      oa.average_share_price = 5 ∧
      b'.portfolio.cash = cbRich.portfolio.cash + oa.total_position_cost ∧
      PyDict.lookup coTen.asset.toTicker b'.portfolio.owned_assets = some oa) :=
  ⟨by decide, open_new_position_spec cbRich 5 (some 0) coTen (by decide)⟩

/-- C9: constructing a Blotter with a non-finder `asset_finder` argument
raises `NotAFinderError`; with a valid or omitted finder and a
non-portfolio `portfolio` argument it raises `NotAPortfolioError`; and
omitted collaborators are replaced by freshly constructed in-memory
defaults. -/
theorem blotter_init_validation :
    (∀ p cm q, Blotter.init (.portfolio_obj q) p cm = .error .notAFinderError) ∧
    (∀ p cm, Blotter.init .other p cm = .error .notAFinderError) ∧
    (∀ f cm g, Blotter.init (.finder f) (.finder_obj g) cm
      = .error .notAPortfolioError) ∧
    (∀ f cm, Blotter.init (.finder f) .other cm = .error .notAPortfolioError) ∧
    (∀ cm g, Blotter.init .is_none (.finder_obj g) cm
      = .error .notAPortfolioError) ∧
    (∀ cm, Blotter.init .is_none .other cm = .error .notAPortfolioError) ∧
    (∀ cm, Blotter.init .is_none .is_none cm =
      .ok { asset_finder := AssetFinder.init, portfolio := Portfolio.init,
            orders := [], trades := [], current_dt := none,
            commission_model := cm.getD PerOrderCommissionModel }) ∧
    (∀ f cm, Blotter.init (.finder f) .is_none cm =
      .ok { asset_finder := f, portfolio := Portfolio.init, orders := [],
            trades := [], current_dt := none,
            commission_model := cm.getD PerOrderCommissionModel }) ∧
    (∀ cm p, Blotter.init .is_none (.portfolio p) cm =
      .ok { asset_finder := AssetFinder.init, portfolio := p, orders := [],
            trades := [], current_dt := none,
            commission_model := cm.getD PerOrderCommissionModel }) :=
  ⟨fun _ _ _ => rfl, fun _ _ => rfl, fun _ _ _ => rfl, fun _ _ => rfl,
   fun _ _ => rfl, fun _ => rfl, fun _ => rfl, fun _ _ => rfl, fun _ _ => rfl⟩

/-- C10: the blotter's item assignment normalizes an `Asset` key to its
ticker string, while item lookup and deletion use the raw key: after
storing a value under an `Asset` key, looking it up or deleting it with the
same `Asset` object is a `KeyError`, while looking it up with the ticker
string succeeds. -/
theorem setitem_normalizes_getitem_raw (a : Asset) (v : OrdVal) :
    ((baseBlotter 0).setitem (Key.asset a) v).orders = [(Key.str a.ticker, v)] ∧
    ((baseBlotter 0).setitem (Key.asset a) v).getitem (Key.asset a)
      = .error .keyError ∧
    ((baseBlotter 0).setitem (Key.asset a) v).getitem (Key.str a.ticker) = .ok v ∧
    (((baseBlotter 0).setitem (Key.asset a) v).delitem (Key.asset a)).map
        Blotter.orders
      = .error .keyError := by
  refine ⟨rfl, rfl, ?_, rfl⟩
  simp [Blotter.setitem, Blotter.getitem, baseBlotter, PyDict.insert, PyDict.lookup]

end PyTech
